import Mathlib

/-!
Shallow embedding of `src/src/secrets_rotation.py` (class `SecretsRotation`).

Modelling notes.

* The backend (PostgreSQL) state touched by the program is modelled by
  `DBState`: the database principals (users with a password and a set of
  granted privileges), the `rotation_history` audit table, and the
  `app_credentials` table together with the `SERIAL` sequence that feeds
  its `cred_id` primary key.

* Every SQL statement the Python code issues is an `Op`.  A run is
  parametrised by a failure model `fails : Op → Bool`: `fails op = true`
  means that executing `op` raises an exception in Python (a
  `BackendError`).  A statement that raises has no effect on the state (a
  single failed SQL statement is atomic); a statement that succeeds has
  the effect given by `applyOp`.  Each embedded method returns a
  `RunResult`: the final state, the trace of statements attempted in
  order, and the Python-level return value (`PyRet`).

* `generate_strong_password` samples characters with `secrets.choice`
  from a fixed alphabet; the random source is modelled by
  `rs : Nat → Nat → Nat` giving, for each retry attempt and character
  position, an index into the alphabet.  The Python function recurses on
  itself when the composition check fails; the recursion is modelled with
  explicit fuel counting attempts: `Option.none` means the call has not
  returned after that many attempts (it is still recursing), `some p`
  means it returned password `p`.

* Timestamps are integers measured in days (the program only ever uses
  whole-day intervals: `timedelta(days=...)` and `INTERVAL '7 days'`).

* The rotation methods call `generate_strong_password()` internally; in
  the embedding the generated password is an explicit argument
  (generation itself is modelled separately, with its own randomness).
-/

namespace SecretsRotation

/-- A database principal: its current password and the set of privileges
granted to it.  Privileges are recorded as tokens: `"connect_db"` for
`GRANT CONNECT ON DATABASE`, `"usage_schema"` for `GRANT USAGE ON SCHEMA`,
`"tables_dml"` for `GRANT SELECT, INSERT, UPDATE, DELETE ON ALL TABLES`. -/
structure Principal where
  secret : String
  grants : List String
deriving Repr, DecidableEq

/-- A row of the `rotation_history` table as inserted by the program
(`username, rotation_type, status, notes`; `rotation_id` and
`rotation_date` are server defaults and irrelevant to the claims). -/
structure RotationRecord where
  username : String
  rotation_type : String
  status : String
  notes : String
deriving Repr, DecidableEq

/-- A row of the `app_credentials` table as inserted by
`schedule_rotation` (`cred_id SERIAL PRIMARY KEY, service_name, username,
expires_at`; `password_hash` and `last_rotated` are never written by the
program). -/
structure CredRow where
  cred_id : Nat
  service_name : String
  username : String
  expires_at : Int
deriving Repr, DecidableEq

/-- The backend state: principals (association list name to principal),
the `rotation_history` table, the `app_credentials` table and the next
value of the `cred_id SERIAL` sequence. -/
structure DBState where
  principals : List (String × Principal)
  history : List RotationRecord
  creds : List CredRow
  nextCredId : Nat
deriving Repr, DecidableEq

/-- State after `setup()`: both tables created and empty; the
`cred_id SERIAL` sequence starts at 1.  Note the schema: the only unique
constraint on `app_credentials` is the primary key on `cred_id`; there is
no uniqueness constraint on `username` or `(service_name, username)`. -/
def setup : DBState := ⟨[], [], [], 1⟩

/-- The SQL statements issued by the program, one constructor per
statement shape. -/
inductive Op where
  | dropUserIfExists (name : String)
  | createUser (name secret : String)
  | grantConnectDb (name : String)
  | grantUsageSchema (name : String)
  | grantTables (name : String)
  | alterPassword (name secret : String)
  | testAuth (name secret : String)
  | revokeTables (name : String)
  | revokeDb (name : String)
  | revokeSchema (name : String)
  | dropUser (name : String)
  | renameUser (oldName newName : String)
  | insertHistory (rec : RotationRecord)
  | insertCredentials (service username : String) (expires : Int)
deriving Repr, DecidableEq

/-- Lookup a principal by name in the association list. -/
def lookupP : List (String × Principal) → String → Option Principal
  | [], _ => Option.none
  | kv :: rest, n => if kv.1 = n then some kv.2 else lookupP rest n

/-- Remove a principal by name (`DROP USER`; with `IF EXISTS` this is a
no-op on an absent name, without it absence is a failure injected through
the failure model, the successful effect is the same removal). -/
def removeP : List (String × Principal) → String → List (String × Principal)
  | [], _ => []
  | kv :: rest, n => if kv.1 = n then removeP rest n else kv :: removeP rest n

/-- Add a freshly created principal with no grants (`CREATE USER`). -/
def createP (ps : List (String × Principal)) (n s : String) :
    List (String × Principal) :=
  ps ++ [(n, ⟨s, []⟩)]

/-- Set the password of a principal (`ALTER USER ... WITH PASSWORD`). -/
def setSecretP : List (String × Principal) → String → String → List (String × Principal)
  | [], _, _ => []
  | kv :: rest, n, s =>
    if kv.1 = n then (kv.1, ⟨s, kv.2.grants⟩) :: setSecretP rest n s
    else kv :: setSecretP rest n s

/-- Add a privilege token to a principal (`GRANT ...`). -/
def addGrantP : List (String × Principal) → String → String → List (String × Principal)
  | [], _, _ => []
  | kv :: rest, n, g =>
    if kv.1 = n then (kv.1, ⟨kv.2.secret, kv.2.grants ++ [g]⟩) :: addGrantP rest n g
    else kv :: addGrantP rest n g

/-- Remove a privilege token from a principal (`REVOKE ...`). -/
def removeGrantP : List (String × Principal) → String → String → List (String × Principal)
  | [], _, _ => []
  | kv :: rest, n, g =>
    if kv.1 = n then (kv.1, ⟨kv.2.secret, kv.2.grants.filter (fun x => x ≠ g)⟩) :: removeGrantP rest n g
    else kv :: removeGrantP rest n g

/-- Rename a principal (`ALTER USER ... RENAME TO ...`). -/
def renameP : List (String × Principal) → String → String → List (String × Principal)
  | [], _, _ => []
  | kv :: rest, o, n =>
    if kv.1 = o then (n, kv.2) :: renameP rest o n
    else kv :: renameP rest o n

/-- Effect of a successfully executed statement on the backend state.
`insertCredentials` embeds `INSERT ... ON CONFLICT DO NOTHING` against
the actual schema of `app_credentials`: the only unique constraint is the
primary key `cred_id`, filled from the `SERIAL` sequence, so the insert
is skipped only when the fresh sequence value collides with an existing
`cred_id`. -/
def applyOp (st : DBState) : Op → DBState
  | .dropUserIfExists n => { st with principals := removeP st.principals n }
  | .createUser n s => { st with principals := createP st.principals n s }
  | .grantConnectDb n => { st with principals := addGrantP st.principals n "connect_db" }
  | .grantUsageSchema n => { st with principals := addGrantP st.principals n "usage_schema" }
  | .grantTables n => { st with principals := addGrantP st.principals n "tables_dml" }
  | .alterPassword n s => { st with principals := setSecretP st.principals n s }
  | .testAuth _ _ => st
  | .revokeTables n => { st with principals := removeGrantP st.principals n "tables_dml" }
  | .revokeDb n => { st with principals := removeGrantP st.principals n "connect_db" }
  | .revokeSchema n => { st with principals := removeGrantP st.principals n "usage_schema" }
  | .dropUser n => { st with principals := removeP st.principals n }
  | .renameUser o n => { st with principals := renameP st.principals o n }
  | .insertHistory r => { st with history := st.history ++ [r] }
  | .insertCredentials sv u e =>
    if st.creds.any (fun r => r.cred_id = st.nextCredId) then st
    else { st with creds := st.creds ++ [⟨st.nextCredId, sv, u, e⟩],
                   nextCredId := st.nextCredId + 1 }

/-- Python-level outcome of a method call: a returned `bool`, a returned
`None`, or an exception that propagated out of the method uncaught. -/
inductive PyRet where
  | retBool (b : Bool)
  | retNone
  | raised
deriving Repr, DecidableEq

/-- Final state, trace of attempted statements (in order), and
Python-level return value of one embedded method call. -/
structure RunResult where
  state : DBState
  trace : List Op
  ret : PyRet
deriving Repr, DecidableEq

/-- Embeds `create_app_user(username, initial_password)`: a single
`try` block runs `DROP USER IF EXISTS`, `CREATE USER` and the three
`GRANT`s; `except Exception` catches any failure and only logs it; the
method then falls through to an implicit `return None` on every path. -/
def create_app_user (fails : Op → Bool) (username initial_password : String)
    (st : DBState) : RunResult :=
  let o1 := Op.dropUserIfExists username
  if fails o1 then ⟨st, [o1], .retNone⟩ else
  let s1 := applyOp st o1
  let o2 := Op.createUser username initial_password
  if fails o2 then ⟨s1, [o1, o2], .retNone⟩ else
  let s2 := applyOp s1 o2
  let o3 := Op.grantConnectDb username
  if fails o3 then ⟨s2, [o1, o2, o3], .retNone⟩ else
  let s3 := applyOp s2 o3
  let o4 := Op.grantUsageSchema username
  if fails o4 then ⟨s3, [o1, o2, o3, o4], .retNone⟩ else
  let s4 := applyOp s3 o4
  let o5 := Op.grantTables username
  if fails o5 then ⟨s4, [o1, o2, o3, o4, o5], .retNone⟩ else
  ⟨applyOp s4 o5, [o1, o2, o3, o4, o5], .retNone⟩

/-- The `rotation_history` row inserted by a successful
`rotate_password`: `(username, 'password_rotation', 'success',
f'Password rotated at {datetime.now()}')`; `now` is the formatted
timestamp. -/
def singleSuccessRecord (username now : String) : RotationRecord :=
  ⟨username, "password_rotation", "success", "Password rotated at " ++ now⟩

/-- The `rotation_history` row inserted by a successful
`rotate_with_dual_password`. -/
def dualSuccessRecord (username : String) : RotationRecord :=
  ⟨username, "dual_password_rotation", "success", "Zero-downtime rotation complete"⟩

/-- Embeds `rotate_password(username, simulate_app_update)`.
`new_password` is the value of the internal `generate_strong_password()`
call; `now` the timestamp used in the audit note.  Control flow follows
the source: `ALTER USER` inside `try` (on failure the method returns
`False`); if `simulate_app_update`, a verification connect inside `try`
(on failure it returns `False`); then an unprotected `INSERT` into
`rotation_history` (a failure there propagates) and `return True`. -/
def rotate_password (fails : Op → Bool) (username new_password now : String)
    (simulate_app_update : Bool) (st : DBState) : RunResult :=
  let oAlter := Op.alterPassword username new_password
  if fails oAlter then ⟨st, [oAlter], .retBool false⟩ else
  let s1 := applyOp st oAlter
  let oVerify := Op.testAuth username new_password
  if simulate_app_update && fails oVerify then
    ⟨s1, [oAlter, oVerify], .retBool false⟩ else
  let trace1 := if simulate_app_update then [oAlter, oVerify] else [oAlter]
  let oIns := Op.insertHistory (singleSuccessRecord username now)
  if fails oIns then ⟨s1, trace1 ++ [oIns], .raised⟩ else
  ⟨applyOp s1 oIns, trace1 ++ [oIns], .retBool true⟩

/-- Embeds `rotate_with_dual_password(username)`.  `new_password` is the
value of the internal `generate_strong_password()` call.  Control flow
follows the source: shadow-user creation (drop-if-exists, create, three
grants) inside one `try` returning `False` on failure; then the
retirement sequence (three revokes, drop, rename) and the history
`INSERT`, all outside any `try`, so a failure there propagates uncaught
(`.raised`). -/
def rotate_with_dual_password (fails : Op → Bool) (username new_password : String)
    (st : DBState) : RunResult :=
  let temp := username ++ "_new"
  let o1 := Op.dropUserIfExists temp
  if fails o1 then ⟨st, [o1], .retBool false⟩ else
  let s1 := applyOp st o1
  let o2 := Op.createUser temp new_password
  if fails o2 then ⟨s1, [o1, o2], .retBool false⟩ else
  let s2 := applyOp s1 o2
  let o3 := Op.grantConnectDb temp
  if fails o3 then ⟨s2, [o1, o2, o3], .retBool false⟩ else
  let s3 := applyOp s2 o3
  let o4 := Op.grantUsageSchema temp
  if fails o4 then ⟨s3, [o1, o2, o3, o4], .retBool false⟩ else
  let s4 := applyOp s3 o4
  let o5 := Op.grantTables temp
  if fails o5 then ⟨s4, [o1, o2, o3, o4, o5], .retBool false⟩ else
  let s5 := applyOp s4 o5
  let o6 := Op.revokeTables username
  if fails o6 then ⟨s5, [o1, o2, o3, o4, o5, o6], .raised⟩ else
  let s6 := applyOp s5 o6
  let o7 := Op.revokeDb username
  if fails o7 then ⟨s6, [o1, o2, o3, o4, o5, o6, o7], .raised⟩ else
  let s7 := applyOp s6 o7
  let o8 := Op.revokeSchema username
  if fails o8 then ⟨s7, [o1, o2, o3, o4, o5, o6, o7, o8], .raised⟩ else
  let s8 := applyOp s7 o8
  let o9 := Op.dropUser username
  if fails o9 then ⟨s8, [o1, o2, o3, o4, o5, o6, o7, o8, o9], .raised⟩ else
  let s9 := applyOp s8 o9
  let o10 := Op.renameUser temp username
  if fails o10 then ⟨s9, [o1, o2, o3, o4, o5, o6, o7, o8, o9, o10], .raised⟩ else
  let s10 := applyOp s9 o10
  let o11 := Op.insertHistory (dualSuccessRecord username)
  if fails o11 then ⟨s10, [o1, o2, o3, o4, o5, o6, o7, o8, o9, o10, o11], .raised⟩ else
  ⟨applyOp s10 o11, [o1, o2, o3, o4, o5, o6, o7, o8, o9, o10, o11], .retBool true⟩

/-- Embeds `schedule_rotation(username, days_until_expire)`:
`expires_at = datetime.now() + timedelta(days=days_until_expire)`, then
one `INSERT ... ON CONFLICT DO NOTHING` into `app_credentials` (not
inside a `try`, so a backend failure propagates).  `now` is the current
time in days. -/
def schedule_rotation (fails : Op → Bool) (username : String)
    (days_until_expire : Int) (now : Int) (st : DBState) : RunResult :=
  let expires := now + days_until_expire
  let op := Op.insertCredentials "database" username expires
  if fails op then ⟨st, [op], .raised⟩
  else ⟨applyOp st op, [op], .retNone⟩

/-- Embeds `check_expired_credentials()`: one `SELECT username,
expires_at FROM app_credentials WHERE expires_at < NOW() + INTERVAL
'7 days'` and a return of the fetched rows; the method issues no other
statement, so the state component of the result is the input state. -/
def check_expired_credentials (now : Int) (st : DBState) :
    DBState × List (String × Int) :=
  (st,
    (st.creds.filter (fun r => decide (r.expires_at < now + 7))).map
      (fun r => (r.username, r.expires_at)))

/-- The fixed symbol set of the generator. -/
def symbolSet : List Char := ['!', '@', '#', '$', '%', '^', '&', '*']

/-- The generator's alphabet: `string.ascii_letters + string.digits +
"!@#$%^&*"`. -/
def alphabet : List Char :=
  "abcdefghijklmnopqrstuvwxyzABCDEFGHIJKLMNOPQRSTUVWXYZ0123456789!@#$%^&*".toList

def has_lower (p : List Char) : Bool := p.any Char.isLower

def has_upper (p : List Char) : Bool := p.any Char.isUpper

def has_digit (p : List Char) : Bool := p.any Char.isDigit

def has_special (p : List Char) : Bool := p.any (fun c => symbolSet.contains c)

/-- The composition check of `generate_strong_password`. -/
def meets_requirements (p : List Char) : Bool :=
  has_lower p && has_upper p && has_digit p && has_special p

/-- One sampling pass: `''.join(secrets.choice(alphabet) for i in
range(length))`, with the random source `rs` giving the chosen alphabet
index for each (attempt, position). -/
def sampleAttempt (rs : Nat → Nat → Nat) (attempt len : Nat) : List Char :=
  (List.range len).map (fun i => alphabet.getD (rs attempt i % alphabet.length) '?')

/-- The recursion of `generate_strong_password`, made structural on
`fuel`: each unit of fuel is one sampling attempt; `Option.none` means
the call is still recursing after that many attempts (the source has no
retry bound and no error outcome — on a failed composition check it
always calls itself again with the same length). -/
def genAux (rs : Nat → Nat → Nat) (len : Nat) : Nat → Nat → Option (List Char)
  | _, 0 => Option.none
  | attempt, fuel + 1 =>
    let p := sampleAttempt rs attempt len
    if meets_requirements p then some p else genAux rs len (attempt + 1) fuel

/-- Embeds `generate_strong_password(length)` (default length 32),
starting at attempt 0 with the given fuel. -/
def generate_strong_password (rs : Nat → Nat → Nat) (len fuel : Nat) :
    Option (List Char) :=
  genAux rs len 0 fuel

/-- A retirement statement of the dual rotation: revoke, drop or rename. -/
def isRetirementOp : Op → Bool
  | .revokeTables _ => true
  | .revokeDb _ => true
  | .revokeSchema _ => true
  | .dropUser _ => true
  | .renameUser _ _ => true
  | _ => false

/-- Random source for concrete evaluations: cycles through indices of
'a', 'A', '0', '!' in the alphabet. -/
def rsW (attempt i : Nat) : Nat :=
  let _ := attempt
  [0, 26, 52, 62].getD (i % 4) 0

/-- The concrete password produced by `rsW` at length 12. -/
def pW : List Char := "aA0!aA0!aA0!".toList

/-! Helper lemmas. -/

theorem append_new_ne (u : String) : u ++ "_new" ≠ u := by
  intro h
  have h2 := congrArg String.length h
  simp [String.length_append] at h2
  exact absurd h2 (by decide)

theorem lookupP_removeP_ne (ps : List (String × Principal)) (m n : String)
    (h : m ≠ n) : lookupP (removeP ps m) n = lookupP ps n := by
  induction ps with
  | nil => rfl
  | cons kv rest ih =>
    by_cases hk : kv.1 = m
    · have hn : kv.1 ≠ n := by rw [hk]; exact h
      simp [removeP, lookupP, hk, hn, ih, h]
    · simp only [removeP, if_neg hk, lookupP, ih]

theorem lookupP_createP_ne (ps : List (String × Principal)) (m n s : String)
    (h : m ≠ n) : lookupP (createP ps m s) n = lookupP ps n := by
  induction ps with
  | nil => simp [createP, lookupP, h]
  | cons kv rest ih =>
    simp only [createP, List.cons_append, lookupP, List.append_eq] at ih ⊢
    rw [ih]

theorem lookupP_addGrantP_ne (ps : List (String × Principal)) (m n g : String)
    (h : m ≠ n) : lookupP (addGrantP ps m g) n = lookupP ps n := by
  induction ps with
  | nil => rfl
  | cons kv rest ih =>
    by_cases hk : kv.1 = m
    · have hn : kv.1 ≠ n := by rw [hk]; exact h
      simp [addGrantP, lookupP, hk, hn, ih, h]
    · simp only [addGrantP, if_neg hk, lookupP, ih]

theorem lookupP_setSecretP_ne (ps : List (String × Principal)) (m n s : String)
    (h : m ≠ n) : lookupP (setSecretP ps m s) n = lookupP ps n := by
  induction ps with
  | nil => rfl
  | cons kv rest ih =>
    by_cases hk : kv.1 = m
    · have hn : kv.1 ≠ n := by rw [hk]; exact h
      simp [setSecretP, lookupP, hk, hn, ih, h]
    · simp only [setSecretP, if_neg hk, lookupP, ih]

theorem sampleAttempt_len_zero (rs : Nat → Nat → Nat) (a : Nat) :
    sampleAttempt rs a 0 = [] := rfl

theorem genAux_len_zero (rs : Nat → Nat → Nat) :
    ∀ fuel attempt, genAux rs 0 attempt fuel = Option.none := by
  intro fuel
  induction fuel with
  | zero => intro a; rfl
  | succ n ih =>
    intro a
    show (if meets_requirements (sampleAttempt rs a 0) then
        some (sampleAttempt rs a 0) else genAux rs 0 (a + 1) n) = Option.none
    rw [sampleAttempt_len_zero]
    rw [if_neg (by decide)]
    exact ih (a + 1)

theorem genAux_spec (rs : Nat → Nat → Nat) (len : Nat) :
    ∀ fuel attempt p, genAux rs len attempt fuel = some p →
      meets_requirements p = true ∧ p.length = len := by
  intro fuel
  induction fuel with
  | zero => intro a p h; exact absurd h (by simp [genAux])
  | succ n ih =>
    intro a p h
    by_cases hm : meets_requirements (sampleAttempt rs a len) = true
    · have hp : p = sampleAttempt rs a len := by
        rw [show genAux rs len a (n + 1) = (if meets_requirements (sampleAttempt rs a len) then
            some (sampleAttempt rs a len) else genAux rs len (a + 1) n) from rfl,
          if_pos hm] at h
        exact (Option.some.injEq _ _ ▸ h).symm
      subst hp
      exact ⟨hm, by simp [sampleAttempt]⟩
    · rw [show genAux rs len a (n + 1) = (if meets_requirements (sampleAttempt rs a len) then
          some (sampleAttempt rs a len) else genAux rs len (a + 1) n) from rfl,
        if_neg hm] at h
      exact ih (a + 1) p h

theorem rotate_password_history (fails : Op → Bool) (u s now : String)
    (sim : Bool) (st : DBState) :
    (rotate_password fails u s now sim st).state.history =
      (if (rotate_password fails u s now sim st).ret = PyRet.retBool true
       then st.history ++ [singleSuccessRecord u now] else st.history) := by
  cases h1 : fails (Op.alterPassword u s) with
  | true => simp [rotate_password, h1]
  | false =>
    cases hs : sim with
    | false =>
      cases h3 : fails (Op.insertHistory (singleSuccessRecord u now)) with
      | true => simp [rotate_password, h1, hs, h3, applyOp]
      | false => simp [rotate_password, h1, hs, h3, applyOp]
    | true =>
      cases h2 : fails (Op.testAuth u s) with
      | true => simp [rotate_password, h1, hs, h2, applyOp]
      | false =>
        cases h3 : fails (Op.insertHistory (singleSuccessRecord u now)) with
        | true => simp [rotate_password, h1, hs, h2, h3, applyOp]
        | false => simp [rotate_password, h1, hs, h2, h3, applyOp]

theorem rotate_dual_history (fails : Op → Bool) (u s : String) (st : DBState) :
    (rotate_with_dual_password fails u s st).state.history =
      (if (rotate_with_dual_password fails u s st).ret = PyRet.retBool true
       then st.history ++ [dualSuccessRecord u] else st.history) := by
  cases h1 : fails (Op.dropUserIfExists (u ++ "_new")) with
  | true => simp [rotate_with_dual_password, h1]
  | false =>
  cases h2 : fails (Op.createUser (u ++ "_new") s) with
  | true => simp [rotate_with_dual_password, h1, h2, applyOp]
  | false =>
  cases h3 : fails (Op.grantConnectDb (u ++ "_new")) with
  | true => simp [rotate_with_dual_password, h1, h2, h3, applyOp]
  | false =>
  cases h4 : fails (Op.grantUsageSchema (u ++ "_new")) with
  | true => simp [rotate_with_dual_password, h1, h2, h3, h4, applyOp]
  | false =>
  cases h5 : fails (Op.grantTables (u ++ "_new")) with
  | true => simp [rotate_with_dual_password, h1, h2, h3, h4, h5, applyOp]
  | false =>
  cases h6 : fails (Op.revokeTables u) with
  | true => simp [rotate_with_dual_password, h1, h2, h3, h4, h5, h6, applyOp]
  | false =>
  cases h7 : fails (Op.revokeDb u) with
  | true => simp [rotate_with_dual_password, h1, h2, h3, h4, h5, h6, h7, applyOp]
  | false =>
  cases h8 : fails (Op.revokeSchema u) with
  | true => simp [rotate_with_dual_password, h1, h2, h3, h4, h5, h6, h7, h8, applyOp]
  | false =>
  cases h9 : fails (Op.dropUser u) with
  | true => simp [rotate_with_dual_password, h1, h2, h3, h4, h5, h6, h7, h8, h9, applyOp]
  | false =>
  cases h10 : fails (Op.renameUser (u ++ "_new") u) with
  | true => simp [rotate_with_dual_password, h1, h2, h3, h4, h5, h6, h7, h8, h9, h10, applyOp]
  | false =>
  cases h11 : fails (Op.insertHistory (dualSuccessRecord u)) with
  | true => simp [rotate_with_dual_password, h1, h2, h3, h4, h5, h6, h7, h8, h9, h10, h11, applyOp]
  | false => simp [rotate_with_dual_password, h1, h2, h3, h4, h5, h6, h7, h8, h9, h10, h11, applyOp]

/-! Claim theorems. -/

/-- C1 counterexample.  A `rotate_password` call whose `ALTER USER`
statement fails appends NO record to the rotation history (the method
just returns `False`), not "exactly one failed record" as the claim
states: starting from an empty history, after the failed attempt the
history is still empty. -/
theorem C1_counterexample :
    (rotate_password (fun op => decide (op = Op.alterPassword "app_service" "npw"))
        "app_service" "npw" "t0" true
        ⟨[("app_service", ⟨"old", ["connect_db"]⟩)], [], [], 1⟩).ret
      = PyRet.retBool false ∧
    (rotate_password (fun op => decide (op = Op.alterPassword "app_service" "npw"))
        "app_service" "npw" "t0" true
        ⟨[("app_service", ⟨"old", ["connect_db"]⟩)], [], [], 1⟩).state.history
      = [] := by
  decide

/-- C1 as amended.  For every rotation attempt, single or dual: exactly
one audit record — the success record — is appended when the attempt
returns `True`, and NO record is appended otherwise (on a caught failure
the method returns `False` without recording; on an uncaught failure the
exception propagates without recording).  The code never writes a
`failed` record. -/
theorem C1_success_only_audit (fails : Op → Bool) (u s now : String)
    (sim : Bool) (st : DBState) :
    ((rotate_password fails u s now sim st).state.history =
      (if (rotate_password fails u s now sim st).ret = PyRet.retBool true
       then st.history ++ [singleSuccessRecord u now] else st.history)) ∧
    ((rotate_with_dual_password fails u s st).state.history =
      (if (rotate_with_dual_password fails u s st).ret = PyRet.retBool true
       then st.history ++ [dualSuccessRecord u] else st.history)) :=
  ⟨rotate_password_history fails u s now sim st, rotate_dual_history fails u s st⟩

/-- C3 (code_bug evidence).  `schedule_rotation` is not set-if-absent:
the `INSERT ... ON CONFLICT DO NOTHING` can only skip on a unique
constraint violation, and `app_credentials` has no unique constraint
other than the auto-generated `cred_id SERIAL PRIMARY KEY`, so the
conflict clause never fires.  Calling `schedule_rotation('app_service',
90)` twice (here at day 0 and day 1) stores TWO schedule rows for the
principal, the second with a different `expires_at` (91 vs 90). -/
theorem C3_duplicate_schedules :
    (schedule_rotation (fun _ => false) "app_service" 90 1
        (schedule_rotation (fun _ => false) "app_service" 90 0 setup).state).state.creds
      = [⟨1, "database", "app_service", 90⟩, ⟨2, "database", "app_service", 91⟩] := by
  decide

/-- C4 (code_bug evidence).  A backend failure at the first retirement
step (`REVOKE ... ON ALL TABLES`) of `rotate_with_dual_password`
propagates as an uncaught exception (`raised`) and appends NO audit
record — not the claimed single `Recorded(Failed)` entry naming the
failed step.  The intermediate state (original principal partially
revoked, shadow principal present under its suffixed name) is left with
no record of it. -/
theorem C4_retirement_failure_unrecorded :
    (rotate_with_dual_password (fun op => decide (op = Op.revokeTables "svc_b"))
        "svc_b" "npw"
        ⟨[("svc_b", ⟨"old", ["connect_db", "usage_schema", "tables_dml"]⟩)], [], [], 1⟩).ret
      = PyRet.raised ∧
    (rotate_with_dual_password (fun op => decide (op = Op.revokeTables "svc_b"))
        "svc_b" "npw"
        ⟨[("svc_b", ⟨"old", ["connect_db", "usage_schema", "tables_dml"]⟩)], [], [], 1⟩).state.history
      = [] ∧
    lookupP (rotate_with_dual_password (fun op => decide (op = Op.revokeTables "svc_b"))
        "svc_b" "npw"
        ⟨[("svc_b", ⟨"old", ["connect_db", "usage_schema", "tables_dml"]⟩)], [], [], 1⟩).state.principals
        "svc_b_new"
      = some ⟨"npw", ["connect_db", "usage_schema", "tables_dml"]⟩ := by
  decide

/-- C6.  If the `ALTER USER ... WITH PASSWORD` statement fails, the
single rotation returns `False`, the only statement attempted is the
alter itself (in particular no verification connect is attempted), and
the state — in particular the principal's active credential — is exactly
the pre-rotation state. -/
theorem C6_alter_failure_clean (fails : Op → Bool) (u s now : String)
    (sim : Bool) (st : DBState) (h : fails (Op.alterPassword u s) = true) :
    rotate_password fails u s now sim st =
      ⟨st, [Op.alterPassword u s], PyRet.retBool false⟩ := by
  simp [rotate_password, h]

/-- Witness for C6 at a concrete input. -/
theorem C6_alter_failure_clean_witness :
    rotate_password (fun op => decide (op = Op.alterPassword "svc" "pw"))
        "svc" "pw" "t0" true setup =
      ⟨setup, [Op.alterPassword "svc" "pw"], PyRet.retBool false⟩ :=
  C6_alter_failure_clean (fun op => decide (op = Op.alterPassword "svc" "pw"))
    "svc" "pw" "t0" true setup (by decide)

/-- C7.  `check_expired_credentials` mutates no state (the state
component of the result is the input state), and its result is exactly
the (username, expires_at) pairs of the stored credential rows whose
expiry lies below now + 7 days; in particular, for a state holding one
schedule expiring at now+3 days and one at now+30 days, it returns
exactly the former. -/
theorem C7_scan_pure_and_exact (now : Int) (st : DBState) :
    (check_expired_credentials now st).1 = st ∧
    (∀ u e, (u, e) ∈ (check_expired_credentials now st).2 ↔
      ∃ r ∈ st.creds, r.username = u ∧ r.expires_at = e ∧ e < now + 7) ∧
    (∀ a b : String,
      (check_expired_credentials now
        ⟨[], [], [⟨1, "database", a, now + 3⟩, ⟨2, "database", b, now + 30⟩], 3⟩).2
        = [(a, now + 3)]) := by
  refine ⟨rfl, ?_, ?_⟩
  · intro u e
    simp only [check_expired_credentials, List.mem_map, List.mem_filter,
      decide_eq_true_eq, Prod.mk.injEq]
    constructor
    · rintro ⟨r, ⟨hr, hlt⟩, hu, he⟩
      exact ⟨r, hr, hu, he, he ▸ hlt⟩
    · rintro ⟨r, hr, hu, he, hlt⟩
      exact ⟨r, ⟨hr, he.symm ▸ hlt⟩, hu, he⟩
  · intro a b
    have h3 : now + 3 < now + 7 := by omega
    have h30 : ¬(now + 30 < now + 7) := by omega
    simp [check_expired_credentials, h3, h30]

/-- C8.  If any statement of the shadow-creation block of
`rotate_with_dual_password` (drop-if-exists, create, or one of the three
grants — all on the shadow name `username + "_new"`) fails, the method
returns `False`, the original principal's entry (existence, secret and
grants) is exactly as before the call, and no retirement statement
(revoke, drop or rename) appears in the trace of attempted statements. -/
theorem C8_shadow_failure_frame (fails : Op → Bool) (u s : String) (st : DBState)
    (h : fails (Op.dropUserIfExists (u ++ "_new")) = true ∨
         fails (Op.createUser (u ++ "_new") s) = true ∨
         fails (Op.grantConnectDb (u ++ "_new")) = true ∨
         fails (Op.grantUsageSchema (u ++ "_new")) = true ∨
         fails (Op.grantTables (u ++ "_new")) = true) :
    (rotate_with_dual_password fails u s st).ret = PyRet.retBool false ∧
    lookupP (rotate_with_dual_password fails u s st).state.principals u =
      lookupP st.principals u ∧
    ∀ op ∈ (rotate_with_dual_password fails u s st).trace,
      isRetirementOp op = false := by
  have hne : u ++ "_new" ≠ u := append_new_ne u
  cases h1 : fails (Op.dropUserIfExists (u ++ "_new")) with
  | true =>
    refine ⟨?_, ?_, ?_⟩ <;> simp [rotate_with_dual_password, h1, isRetirementOp]
  | false =>
  cases h2 : fails (Op.createUser (u ++ "_new") s) with
  | true =>
    refine ⟨?_, ?_, ?_⟩
    · simp [rotate_with_dual_password, h1, h2]
    · simp only [rotate_with_dual_password, h1, h2]
      simp [applyOp]
      exact lookupP_removeP_ne st.principals _ u hne
    · simp [rotate_with_dual_password, h1, h2, isRetirementOp]
  | false =>
  cases h3 : fails (Op.grantConnectDb (u ++ "_new")) with
  | true =>
    refine ⟨?_, ?_, ?_⟩
    · simp [rotate_with_dual_password, h1, h2, h3]
    · simp only [rotate_with_dual_password, h1, h2, h3]
      simp [applyOp]
      rw [lookupP_createP_ne _ _ _ _ hne, lookupP_removeP_ne _ _ _ hne]
    · simp [rotate_with_dual_password, h1, h2, h3, isRetirementOp]
  | false =>
  cases h4 : fails (Op.grantUsageSchema (u ++ "_new")) with
  | true =>
    refine ⟨?_, ?_, ?_⟩
    · simp [rotate_with_dual_password, h1, h2, h3, h4]
    · simp only [rotate_with_dual_password, h1, h2, h3, h4]
      simp [applyOp]
      rw [lookupP_addGrantP_ne _ _ _ _ hne, lookupP_createP_ne _ _ _ _ hne,
        lookupP_removeP_ne _ _ _ hne]
    · simp [rotate_with_dual_password, h1, h2, h3, h4, isRetirementOp]
  | false =>
  cases h5 : fails (Op.grantTables (u ++ "_new")) with
  | true =>
    refine ⟨?_, ?_, ?_⟩
    · simp [rotate_with_dual_password, h1, h2, h3, h4, h5]
    · simp only [rotate_with_dual_password, h1, h2, h3, h4, h5]
      simp [applyOp]
      rw [lookupP_addGrantP_ne _ _ _ _ hne, lookupP_addGrantP_ne _ _ _ _ hne,
        lookupP_createP_ne _ _ _ _ hne, lookupP_removeP_ne _ _ _ hne]
    · simp [rotate_with_dual_password, h1, h2, h3, h4, h5, isRetirementOp]
  | false =>
    exfalso
    rcases h with h | h | h | h | h <;> simp_all

/-- Witness for C8 at a concrete input: creation of the shadow user
fails. -/
theorem C8_shadow_failure_frame_witness :
    (rotate_with_dual_password (fun op => decide (op = Op.createUser "svc_new" "pw"))
        "svc" "pw" setup).ret = PyRet.retBool false ∧
    lookupP (rotate_with_dual_password
        (fun op => decide (op = Op.createUser "svc_new" "pw"))
        "svc" "pw" setup).state.principals "svc" = lookupP setup.principals "svc" ∧
    ∀ op ∈ (rotate_with_dual_password
        (fun op => decide (op = Op.createUser "svc_new" "pw"))
        "svc" "pw" setup).trace, isRetirementOp op = false :=
  C8_shadow_failure_frame (fun op => decide (op = Op.createUser "svc_new" "pw"))
    "svc" "pw" setup (Or.inr (Or.inl (by decide)))

/-- C9.  The audit history never depends on the generated secret: for
any failure model that does not distinguish secrets (backend behaviour
independent of the password value), two runs that differ only in the
generated secret append identical audit records, for both single and
dual rotation — the stored fields (username, rotation type, status,
note) are independent of the secret's cleartext. -/
theorem C9_audit_secret_independence (fails : Op → Bool)
    (hAlter : ∀ n a b, fails (Op.alterPassword n a) = fails (Op.alterPassword n b))
    (hAuth : ∀ n a b, fails (Op.testAuth n a) = fails (Op.testAuth n b))
    (hCreate : ∀ n a b, fails (Op.createUser n a) = fails (Op.createUser n b))
    (u s1 s2 now : String) (sim : Bool) (st : DBState) :
    (rotate_password fails u s1 now sim st).state.history =
      (rotate_password fails u s2 now sim st).state.history ∧
    (rotate_with_dual_password fails u s1 st).state.history =
      (rotate_with_dual_password fails u s2 st).state.history := by
  constructor
  · have hret : (rotate_password fails u s1 now sim st).ret =
        (rotate_password fails u s2 now sim st).ret := by
      have e1 : fails (Op.alterPassword u s2) = fails (Op.alterPassword u s1) :=
        hAlter u s2 s1
      have e2 : fails (Op.testAuth u s2) = fails (Op.testAuth u s1) :=
        hAuth u s2 s1
      cases h1 : fails (Op.alterPassword u s1) with
      | true => simp [rotate_password, h1, e1 ▸ h1]
      | false =>
        rw [h1] at e1
        cases hs : sim with
        | false =>
          cases h3 : fails (Op.insertHistory (singleSuccessRecord u now)) with
          | true => simp [rotate_password, h1, e1, hs, h3]
          | false => simp [rotate_password, h1, e1, hs, h3]
        | true =>
          cases h2 : fails (Op.testAuth u s1) with
          | true =>
            rw [h2] at e2
            simp [rotate_password, h1, e1, hs, h2, e2]
          | false =>
            rw [h2] at e2
            cases h3 : fails (Op.insertHistory (singleSuccessRecord u now)) with
            | true => simp [rotate_password, h1, e1, hs, h2, e2, h3]
            | false => simp [rotate_password, h1, e1, hs, h2, e2, h3]
    rw [rotate_password_history, rotate_password_history, hret]
  · have hret : (rotate_with_dual_password fails u s1 st).ret =
        (rotate_with_dual_password fails u s2 st).ret := by
      have e2 : fails (Op.createUser (u ++ "_new") s2) =
          fails (Op.createUser (u ++ "_new") s1) := hCreate _ s2 s1
      cases h1 : fails (Op.dropUserIfExists (u ++ "_new")) with
      | true => simp [rotate_with_dual_password, h1]
      | false =>
      cases h2 : fails (Op.createUser (u ++ "_new") s1) with
      | true =>
        rw [h2] at e2
        simp [rotate_with_dual_password, h1, h2, e2]
      | false =>
      rw [h2] at e2
      cases h3 : fails (Op.grantConnectDb (u ++ "_new")) with
      | true => simp [rotate_with_dual_password, h1, h2, e2, h3]
      | false =>
      cases h4 : fails (Op.grantUsageSchema (u ++ "_new")) with
      | true => simp [rotate_with_dual_password, h1, h2, e2, h3, h4]
      | false =>
      cases h5 : fails (Op.grantTables (u ++ "_new")) with
      | true => simp [rotate_with_dual_password, h1, h2, e2, h3, h4, h5]
      | false =>
      cases h6 : fails (Op.revokeTables u) with
      | true => simp [rotate_with_dual_password, h1, h2, e2, h3, h4, h5, h6]
      | false =>
      cases h7 : fails (Op.revokeDb u) with
      | true => simp [rotate_with_dual_password, h1, h2, e2, h3, h4, h5, h6, h7]
      | false =>
      cases h8 : fails (Op.revokeSchema u) with
      | true => simp [rotate_with_dual_password, h1, h2, e2, h3, h4, h5, h6, h7, h8]
      | false =>
      cases h9 : fails (Op.dropUser u) with
      | true => simp [rotate_with_dual_password, h1, h2, e2, h3, h4, h5, h6, h7, h8, h9]
      | false =>
      cases h10 : fails (Op.renameUser (u ++ "_new") u) with
      | true =>
        simp [rotate_with_dual_password, h1, h2, e2, h3, h4, h5, h6, h7, h8, h9, h10]
      | false =>
      cases h11 : fails (Op.insertHistory (dualSuccessRecord u)) with
      | true =>
        simp [rotate_with_dual_password, h1, h2, e2, h3, h4, h5, h6, h7, h8, h9, h10, h11]
      | false =>
        simp [rotate_with_dual_password, h1, h2, e2, h3, h4, h5, h6, h7, h8, h9, h10, h11]
    rw [rotate_dual_history, rotate_dual_history, hret]

/-- Witness for C9 at a concrete input: a fault-free backend and two
different secrets. -/
theorem C9_audit_secret_independence_witness :
    (rotate_password (fun _ => false) "svc" "pw1" "t0" true setup).state.history =
      (rotate_password (fun _ => false) "svc" "pw2" "t0" true setup).state.history ∧
    (rotate_with_dual_password (fun _ => false) "svc" "pw1" setup).state.history =
      (rotate_with_dual_password (fun _ => false) "svc" "pw2" setup).state.history :=
  C9_audit_secret_independence (fun _ => false) (fun _ _ _ => rfl) (fun _ _ _ => rfl)
    (fun _ _ _ => rfl) "svc" "pw1" "pw2" "t0" true setup

/-- C10.  `create_app_user` signals nothing to its caller: for every
failure model, every input and every starting state it returns `None`
(the `except` block catches every exception), and in particular a run in
which the `CREATE USER` fails returns exactly the same value as a run in
which everything succeeds, although only the latter leaves the principal
existing in the backend. -/
theorem C10_create_user_silent :
    (∀ (fails : Op → Bool) (u s : String) (st : DBState),
      (create_app_user fails u s st).ret = PyRet.retNone) ∧
    (create_app_user (fun _ => false) "svc" "pw" setup).ret =
      (create_app_user (fun op => decide (op = Op.createUser "svc" "pw"))
        "svc" "pw" setup).ret ∧
    lookupP (create_app_user (fun _ => false) "svc" "pw" setup).state.principals
        "svc" = some ⟨"pw", ["connect_db", "usage_schema", "tables_dml"]⟩ ∧
    lookupP (create_app_user (fun op => decide (op = Op.createUser "svc" "pw"))
        "svc" "pw" setup).state.principals "svc" = Option.none := by
  refine ⟨?_, by decide, by decide, by decide⟩
  intro fails u s st
  simp only [create_app_user]
  repeat' split
  all_goals rfl

/-- C2 (code_bug evidence).  The spec requires generation to stop after a
fixed bounded number of retry attempts (e.g. 100) with a
`GenerationFailed` error when the composition rules are unsatisfiable.
The source instead calls itself again on every failed composition check,
with no attempt counter and no error outcome.  At length 0 the
composition rules can never be satisfied, and for EVERY fuel value (every
number of retry attempts, in particular 101 and beyond) the call has
neither returned a value nor produced an error — the recursion is
unbounded, so no bounded-retry stop exists. -/
theorem C2_unbounded_regeneration :
    ∀ (rs : Nat → Nat → Nat) (fuel : Nat),
      generate_strong_password rs 0 fuel = Option.none := by
  intro rs fuel
  exact genAux_len_zero rs fuel 0

/-- C5.  Every password that `generate_strong_password` returns (at any
length, in particular any length ≥ 12 and the default 32) contains at
least one lowercase letter, one uppercase letter, one digit and one
symbol from the fixed set, and has the requested length. -/
theorem C5_composition (rs : Nat → Nat → Nat) (len fuel : Nat) (p : List Char)
    (h : generate_strong_password rs len fuel = some p) :
    has_lower p = true ∧ has_upper p = true ∧ has_digit p = true ∧
      has_special p = true ∧ p.length = len := by
  obtain ⟨hm, hl⟩ := genAux_spec rs len fuel 0 p h
  rw [meets_requirements] at hm
  simp only [Bool.and_eq_true] at hm
  exact ⟨hm.1.1.1, hm.1.1.2, hm.1.2, hm.2, hl⟩

/-- Witness for C5 at a concrete input: the random source `rsW`, length
12, one attempt, yielding the password `pW`. -/
theorem C5_composition_witness :
    has_lower pW = true ∧ has_upper pW = true ∧ has_digit pW = true ∧
      has_special pW = true ∧ pW.length = 12 :=
  C5_composition rsW 12 1 pW (by decide)

end SecretsRotation
